/-
Verification of the fastapi-launcher configuration-resolution and
process-lifecycle engine.

The definitions below are a shallow embedding of the Python sources:
  * `src/fastapi_launcher/config.py`            (loaders, mergeConfigs, loadConfig)
  * `src/fastapi_launcher/schemas/configSchema.py` (LauncherConfig, EnvironmentConfig,
                                                    getEffectiveConfig)
  * `src/fastapi_launcher/launcher.py`          (launch: mode override, dev reload
                                                 forcing, dispatch + PID cleanup)
  * `src/fastapi_launcher/cli.py`               (the stop command)
  * `src/fastapi_launcher/accessLog.py`         (isSlowRequest)
  * `src/fastapi_launcher/port.py`              (PortInfo, getPortInfo)
  * `src/fastapi_launcher/process.py`           (readPidFile / removePidFile /
                                                 isProcessRunning results, abstracted)

Filesystem and OS interaction is abstracted: loader outputs are taken as
explicit key-value fragments, the OS process table and socket table are
explicit parameters, and Python floats are modelled as rationals (the code
only compares them).  Python dict values that may be `None` are modelled as
`Option` values; Python truthiness of strings/dicts is modelled explicitly.
-/
import Mathlib

namespace FastapiLauncher

/-! ## Enumerations (`enums/modeEnum.py`, `enums/logFormatEnum.py`) -/

/-- `RunMode` from `modeEnum.py`: values `"dev"` and `"prod"`. -/
inductive RunMode where
  | dev
  | prod
deriving DecidableEq, Repr

/-- `ServerBackend` from `modeEnum.py`: values `"uvicorn"` and `"gunicorn"`. -/
inductive ServerBackend where
  | uvicorn
  | gunicorn
deriving DecidableEq, Repr

/-- `LogFormat` from `logFormatEnum.py`: values `"pretty"` and `"json"`. -/
inductive LogFormat where
  | pretty
  | json
deriving DecidableEq, Repr

/-! ## Configuration schema (`schemas/configSchema.py`) -/

/-- `EnvironmentConfig` from `configSchema.py`: a partial override record, every
field optional (`None` = not set by the override). -/
structure EnvironmentConfig where
  host : Option String := none
  port : Option Int := none
  reload : Option Bool := none
  workers : Option Int := none
  logLevel : Option String := none
  logFormat : Option LogFormat := none
  daemon : Option Bool := none
  accessLog : Option Bool := none
  server : Option ServerBackend := none
  timeoutGracefulShutdown : Option Int := none
  maxRequests : Option Int := none
  maxRequestsJitter : Option Int := none
  workerClass : Option String := none
deriving DecidableEq, Repr

/-- The pydantic `ge`/`le` constraints on `EnvironmentConfig` fields
(checked when the model is validated). -/
def environmentConfigValid (e : EnvironmentConfig) : Bool :=
  (e.port.all fun p => 1 ≤ p && p ≤ 65535)
    && (e.workers.all fun w => 1 ≤ w)
    && (e.timeoutGracefulShutdown.all fun t => 0 ≤ t)
    && (e.maxRequests.all fun m => 0 ≤ m)
    && (e.maxRequestsJitter.all fun m => 0 ≤ m)

/-- `LauncherConfig` from `configSchema.py`, with the pydantic field defaults.
Paths are modelled as strings, the float `slow_request_threshold` as a
rational. -/
structure LauncherConfig where
  app : Option String := none
  appDir : Option String := none
  host : String := "127.0.0.1"
  port : Int := 8000
  mode : RunMode := .dev
  server : ServerBackend := .uvicorn
  reload : Bool := false
  reloadDirs : List String := []
  workers : Int := 1
  daemon : Bool := false
  timeoutGracefulShutdown : Int := 10
  maxRequests : Int := 0
  maxRequestsJitter : Int := 0
  workerClass : String := "uvicorn.workers.UvicornWorker"
  logLevel : String := "info"
  logFormat : LogFormat := .pretty
  accessLog : Bool := true
  runtimeDir : String := "runtime"
  healthPath : String := "/health"
  healthTimeout : Int := 5
  slowRequestThreshold : ℚ := 1
  excludePaths : List String := ["/health", "/metrics"]
  dev : Option EnvironmentConfig := none
  prod : Option EnvironmentConfig := none
  envs : Option (List (String × EnvironmentConfig)) := none
deriving DecidableEq, Repr

/-- Python truthiness of an `Optional[str]`: `None` and `""` are falsy. -/
def pyStrTruthy : Option String → Bool
  | none => false
  | some s => s != ""

/-- Python truthiness of an `Optional[dict]`: `None` and `{}` are falsy. -/
def pyDictTruthy {α : Type} : Option (List (String × α)) → Bool
  | none => false
  | some l => !l.isEmpty

/-- `LauncherConfig.getEffectiveConfig` from `configSchema.py`:
choose the override record (the named environment if `envName` is truthy and
`envs` is truthy, else the legacy `dev`/`prod` record matching `mode` when
`envName` is falsy), then overwrite exactly the fields the override sets.
The rebuilt model excludes `dev`/`prod`/`envs` (they reset to `None`). -/
def LauncherConfig.getEffectiveConfig (c : LauncherConfig)
    (envName : Option String := none) : LauncherConfig :=
  let envConfig : Option EnvironmentConfig :=
    if pyStrTruthy envName && pyDictTruthy c.envs then
      (c.envs.getD []).lookup (envName.getD "")
    else if !pyStrTruthy envName then
      match c.mode with
      | .dev => c.dev
      | .prod => c.prod
    else
      none
  match envConfig with
  | none => c
  | some e =>
      { c with
        dev := none
        prod := none
        envs := none
        host := e.host.getD c.host
        port := e.port.getD c.port
        reload := e.reload.getD c.reload
        workers := e.workers.getD c.workers
        logLevel := e.logLevel.getD c.logLevel
        logFormat := e.logFormat.getD c.logFormat
        daemon := e.daemon.getD c.daemon
        accessLog := e.accessLog.getD c.accessLog
        server := e.server.getD c.server
        timeoutGracefulShutdown := e.timeoutGracefulShutdown.getD c.timeoutGracefulShutdown
        maxRequests := e.maxRequests.getD c.maxRequests
        maxRequestsJitter := e.maxRequestsJitter.getD c.maxRequestsJitter
        workerClass := e.workerClass.getD c.workerClass }

/-! ## Untyped configuration fragments (`config.py`) -/

/-- A value in an untyped configuration dict.  Loader outputs are already
typed by the loaders (TOML values, `_parseEnvValues` conversions, typed CLI
arguments), so each dict value is one of these. -/
inductive ConfigValue where
  | str (s : String)
  | int (i : Int)
  | bool (b : Bool)
  | rat (q : ℚ)
  | strList (l : List String)
  | mode (m : RunMode)
  | logFormat (f : LogFormat)
  | server (s : ServerBackend)
  | envCfg (e : EnvironmentConfig)
  | envMap (m : List (String × EnvironmentConfig))
deriving DecidableEq, Repr

/-- A loader-produced configuration dict; a value may be Python `None`
(modelled `none`). -/
abbrev ConfigFragment := List (String × Option ConfigValue)

/-- Python dict assignment `d[k] = v`: replace in place if the key exists,
else append. -/
def dictSet {α : Type} (m : List (String × α)) (k : String) (v : α) :
    List (String × α) :=
  if m.any (fun p => p.1 == k) then
    m.map fun p => if p.1 == k then (k, v) else p
  else
    m ++ [(k, v)]

/-- `mergeConfigs` from `config.py`: later fragments take precedence, and a
`None` value never overwrites (the key is simply skipped). -/
def mergeConfigs (configs : List ConfigFragment) : List (String × ConfigValue) :=
  configs.foldl
    (fun result config =>
      config.foldl
        (fun res kv =>
          match kv.2 with
          | some v => dictSet res kv.1 v
          | none => res)
        result)
    []

/-- The error taxonomy surfaced by `loadConfig` (`ValueError` in the source:
either a pydantic validation failure or an unknown named environment). -/
inductive ConfigError where
  | invalidField (field : String)
  | envNotFound (name : String) (available : List String)
deriving DecidableEq, Repr

/-! ### Field extraction with pydantic defaults and constraints -/

/-- Optional string field. -/
def getOptStr (m : List (String × ConfigValue)) (k : String) :
    Except ConfigError (Option String) :=
  match m.lookup k with
  | none => .ok none
  | some (.str s) => .ok (some s)
  | some _ => .error (.invalidField k)

/-- String field with default. -/
def getStr (m : List (String × ConfigValue)) (k : String) (d : String) :
    Except ConfigError String :=
  match m.lookup k with
  | none => .ok d
  | some (.str s) => .ok s
  | some _ => .error (.invalidField k)

/-- Bool field with default. -/
def getBool (m : List (String × ConfigValue)) (k : String) (d : Bool) :
    Except ConfigError Bool :=
  match m.lookup k with
  | none => .ok d
  | some (.bool b) => .ok b
  | some _ => .error (.invalidField k)

/-- Integer field with default and the pydantic `ge`/`le` bounds. -/
def getIntRange (m : List (String × ConfigValue)) (k : String) (d : Int)
    (lo hi : Option Int) : Except ConfigError Int :=
  match m.lookup k with
  | none => .ok d
  | some (.int i) =>
      if (lo.all fun l => l ≤ i) && (hi.all fun h => i ≤ h) then .ok i
      else .error (.invalidField k)
  | some _ => .error (.invalidField k)

/-- Float (rational) field with default and a lower bound; pydantic also
accepts an integer for a float field. -/
def getRatGe (m : List (String × ConfigValue)) (k : String) (d : ℚ)
    (lo : ℚ) : Except ConfigError ℚ :=
  match m.lookup k with
  | none => .ok d
  | some (.rat q) => if lo ≤ q then .ok q else .error (.invalidField k)
  | some (.int i) => if lo ≤ (i : ℚ) then .ok (i : ℚ) else .error (.invalidField k)
  | some _ => .error (.invalidField k)

/-- String-list field with default. -/
def getStrList (m : List (String × ConfigValue)) (k : String)
    (d : List String) : Except ConfigError (List String) :=
  match m.lookup k with
  | none => .ok d
  | some (.strList l) => .ok l
  | some _ => .error (.invalidField k)

/-- `RunMode` string value, as in the `RunMode(str, Enum)` constructor. -/
def runModeOfString : String → Option RunMode
  | "dev" => some .dev
  | "prod" => some .prod
  | _ => none

/-- `ServerBackend` string value. -/
def serverBackendOfString : String → Option ServerBackend
  | "uvicorn" => some .uvicorn
  | "gunicorn" => some .gunicorn
  | _ => none

/-- `LogFormat` string value. -/
def logFormatOfString : String → Option LogFormat
  | "pretty" => some .pretty
  | "json" => some .json
  | _ => none

/-- `RunMode` field with default; a string value is validated against the
str-enum values as pydantic does. -/
def getMode (m : List (String × ConfigValue)) (k : String) (d : RunMode) :
    Except ConfigError RunMode :=
  match m.lookup k with
  | none => .ok d
  | some (.mode md) => .ok md
  | some (.str s) =>
      match runModeOfString s with
      | some md => .ok md
      | none => .error (.invalidField k)
  | some _ => .error (.invalidField k)

/-- `ServerBackend` field with default. -/
def getServer (m : List (String × ConfigValue)) (k : String)
    (d : ServerBackend) : Except ConfigError ServerBackend :=
  match m.lookup k with
  | none => .ok d
  | some (.server s) => .ok s
  | some (.str s) =>
      match serverBackendOfString s with
      | some sv => .ok sv
      | none => .error (.invalidField k)
  | some _ => .error (.invalidField k)

/-- `LogFormat` field with default. -/
def getLogFormat (m : List (String × ConfigValue)) (k : String)
    (d : LogFormat) : Except ConfigError LogFormat :=
  match m.lookup k with
  | none => .ok d
  | some (.logFormat f) => .ok f
  | some (.str s) =>
      match logFormatOfString s with
      | some f => .ok f
      | none => .error (.invalidField k)
  | some _ => .error (.invalidField k)

/-- Optional nested `EnvironmentConfig` field (`dev` / `prod`), validated. -/
def getOptEnvCfg (m : List (String × ConfigValue)) (k : String) :
    Except ConfigError (Option EnvironmentConfig) :=
  match m.lookup k with
  | none => .ok none
  | some (.envCfg e) =>
      if environmentConfigValid e then .ok (some e) else .error (.invalidField k)
  | some _ => .error (.invalidField k)

/-- Optional `envs` mapping, each named override validated. -/
def getOptEnvMap (m : List (String × ConfigValue)) (k : String) :
    Except ConfigError (Option (List (String × EnvironmentConfig))) :=
  match m.lookup k with
  | none => .ok none
  | some (.envMap es) =>
      if es.all fun p => environmentConfigValid p.2 then .ok (some es)
      else .error (.invalidField k)
  | some _ => .error (.invalidField k)

/-- `LauncherConfig(**mergedConfig)`: pydantic validation of the merged dict
against the schema, with the §3 defaults and range constraints. -/
def parseLauncherConfig (m : List (String × ConfigValue)) :
    Except ConfigError LauncherConfig := do
  let app ← getOptStr m "app"
  let appDir ← getOptStr m "app_dir"
  let host ← getStr m "host" "127.0.0.1"
  let port ← getIntRange m "port" 8000 (some 1) (some 65535)
  let mode ← getMode m "mode" .dev
  let server ← getServer m "server" .uvicorn
  let reload ← getBool m "reload" false
  let reloadDirs ← getStrList m "reload_dirs" []
  let workers ← getIntRange m "workers" 1 (some 1) none
  let daemon ← getBool m "daemon" false
  let timeoutGracefulShutdown ← getIntRange m "timeout_graceful_shutdown" 10 (some 0) none
  let maxRequests ← getIntRange m "max_requests" 0 (some 0) none
  let maxRequestsJitter ← getIntRange m "max_requests_jitter" 0 (some 0) none
  let workerClass ← getStr m "worker_class" "uvicorn.workers.UvicornWorker"
  let logLevel ← getStr m "log_level" "info"
  let logFormat ← getLogFormat m "log_format" .pretty
  let accessLog ← getBool m "access_log" true
  let runtimeDir ← getStr m "runtime_dir" "runtime"
  let healthPath ← getStr m "health_path" "/health"
  let healthTimeout ← getIntRange m "health_timeout" 5 (some 1) none
  let slowRequestThreshold ← getRatGe m "slow_request_threshold" 1 0
  let excludePaths ← getStrList m "exclude_paths" ["/health", "/metrics"]
  let dev ← getOptEnvCfg m "dev"
  let prod ← getOptEnvCfg m "prod"
  let envs ← getOptEnvMap m "envs"
  return { app, appDir, host, port, mode, server, reload, reloadDirs,
           workers, daemon, timeoutGracefulShutdown, maxRequests,
           maxRequestsJitter, workerClass, logLevel, logFormat, accessLog,
           runtimeDir, healthPath, healthTimeout, slowRequestThreshold,
           excludePaths, dev, prod, envs }

/-- The merged dict built inside `loadConfig` (`config.py` lines 185-202):
filter `None` CLI values, merge by priority, apply the mode override, then
default `app_dir` to the project directory. -/
def buildMergedConfig (pyprojectConfig dotenvConfig osEnvConfig cliArgs :
    ConfigFragment) (projectDir : String) (mode : Option RunMode) :
    List (String × ConfigValue) :=
  let cliConfig := cliArgs.filter fun kv => kv.2.isSome
  let merged := mergeConfigs [pyprojectConfig, dotenvConfig, osEnvConfig, cliConfig]
  let merged :=
    match mode with
    | some md => dictSet merged "mode" (.mode md)
    | none => merged
  if merged.any (fun p => p.1 == "app_dir") then merged
  else dictSet merged "app_dir" (.str projectDir)

/-- `loadConfig` from `config.py`: build and validate the merged config, check
the named environment, and return the effective configuration.  The loader
outputs (pyproject section, dotenv, process environment) and the CLI argument
dict are explicit inputs. -/
def loadConfig (pyprojectConfig dotenvConfig osEnvConfig cliArgs :
    ConfigFragment) (projectDir : String) (mode : Option RunMode)
    (envName : Option String) : Except ConfigError LauncherConfig :=
  match parseLauncherConfig
      (buildMergedConfig pyprojectConfig dotenvConfig osEnvConfig cliArgs
        projectDir mode) with
  | .error e => .error e
  | .ok config =>
      if pyStrTruthy envName && pyDictTruthy config.envs then
        if ((config.envs.getD []).lookup (envName.getD "")).isNone then
          .error (.envNotFound (envName.getD "")
            ((config.envs.getD []).map Prod.fst))
        else
          .ok (config.getEffectiveConfig envName)
      else if pyStrTruthy envName && !pyDictTruthy config.envs then
        .error (.envNotFound (envName.getD "") [])
      else
        .ok (config.getEffectiveConfig envName)

/-! ## Environment / dotenv string coercion (`config.py`, `_parseEnvValues`) -/

/-- Python `str.lower()` (ASCII case mapping, character-wise). -/
def pyLower (s : String) : String :=
  String.mk (s.data.map Char.toLower)

/-- Python `str.upper()` (ASCII case mapping, character-wise). -/
def pyUpper (s : String) : String :=
  String.mk (s.data.map Char.toUpper)

/-- Python `str.strip()`: drop whitespace from both ends. -/
def stripChars (cs : List Char) : List Char :=
  ((cs.dropWhile Char.isWhitespace).reverse.dropWhile Char.isWhitespace).reverse

/-- Python `str.strip()` on strings. -/
def pyStrip (s : String) : String :=
  String.mk (stripChars s.data)

/-- Python `str.split(sep)` for a one-character separator, on char lists. -/
def splitOnChar (sep : Char) : List Char → List (List Char)
  | [] => [[]]
  | c :: cs =>
      match splitOnChar sep cs with
      | [] => [[c]]
      | h :: t => if c == sep then [] :: h :: t else (c :: h) :: t

/-- Digit-string value (helper for the strict numeric parses). -/
def digitsVal (cs : List Char) : Nat :=
  cs.foldl (fun acc c => acc * 10 + (c.toNat - '0'.toNat)) 0

/-- Python `int(value)` on a string: surrounding whitespace stripped, an
optional sign, then decimal digits; anything else raises (modelled `none`).
Digit-group underscores are not modelled. -/
def pyParseInt (s : String) : Option Int :=
  let body := stripChars s.data
  let (neg, digits) :=
    match body with
    | '+' :: rest => (false, rest)
    | '-' :: rest => (true, rest)
    | cs => (false, cs)
  if digits.isEmpty || !digits.all Char.isDigit then none
  else if neg then some (-(digitsVal digits : Int))
  else some (digitsVal digits : Int)

/-- Python `float(value)` on a string, restricted to plain decimal forms
`[sign] digits [. digits]` (exponents, `inf`, `nan` are not modelled). -/
def pyParseFloat (s : String) : Option ℚ :=
  let body := stripChars s.data
  let (sgn, digits) :=
    match body with
    | '+' :: rest => ((1 : ℚ), rest)
    | '-' :: rest => ((-1 : ℚ), rest)
    | cs => ((1 : ℚ), cs)
  match splitOnChar '.' digits with
  | [ip] =>
      if ip.isEmpty || !ip.all Char.isDigit then none
      else some (sgn * (digitsVal ip : ℚ))
  | [ip, fp] =>
      if (ip.isEmpty && fp.isEmpty)
          || !ip.all Char.isDigit || !fp.all Char.isDigit then none
      else
        some (sgn * ((digitsVal ip : ℚ)
          + (digitsVal fp : ℚ) / ((10 : ℚ) ^ fp.length)))
  | _ => none

/-- `[p.strip() for p in value.split(",") if p.strip()]`. -/
def splitCommaTrim (value : String) : List String :=
  (((splitOnChar ',' value.data).map fun p => String.mk (stripChars p)).filter
    fun p => p != "")

/-- The `keyMapping` table in `_parseEnvValues`. -/
def keyMapping : String → Option String
  | "APP" => some "app"
  | "APP_DIR" => some "app_dir"
  | "HOST" => some "host"
  | "PORT" => some "port"
  | "MODE" => some "mode"
  | "RELOAD" => some "reload"
  | "RELOAD_DIRS" => some "reload_dirs"
  | "WORKERS" => some "workers"
  | "DAEMON" => some "daemon"
  | "LOG_LEVEL" => some "log_level"
  | "LOG_FORMAT" => some "log_format"
  | "ACCESS_LOG" => some "access_log"
  | "RUNTIME_DIR" => some "runtime_dir"
  | "HEALTH_PATH" => some "health_path"
  | "HEALTH_TIMEOUT" => some "health_timeout"
  | "SLOW_REQUEST_THRESHOLD" => some "slow_request_threshold"
  | "EXCLUDE_PATHS" => some "exclude_paths"
  | "SERVER" => some "server"
  | "TIMEOUT_GRACEFUL_SHUTDOWN" => some "timeout_graceful_shutdown"
  | "MAX_REQUESTS" => some "max_requests"
  | "MAX_REQUESTS_JITTER" => some "max_requests_jitter"
  | "WORKER_CLASS" => some "worker_class"
  | _ => none

/-- `_parseEnvValues` from `config.py`: map environment/dotenv string values
to typed config values.  Integers and floats use the strict parse and drop
the key on failure; booleans are `str(value).lower() in ("true", "1", "yes")`;
lists are split on commas, trimmed, empty segments dropped; enums parse the
lowercased value and drop the key when invalid; all other mapped keys keep
the raw string. -/
def parseEnvValues (values : List (String × String)) :
    List (String × ConfigValue) :=
  values.foldl
    (fun result kv =>
      let value := kv.2
      match keyMapping (pyUpper kv.1) with
      | none => result
      | some configKey =>
          if ["port", "workers", "health_timeout", "timeout_graceful_shutdown",
              "max_requests", "max_requests_jitter"].contains configKey then
            match pyParseInt value with
            | some i => dictSet result configKey (.int i)
            | none => result
          else if ["reload", "daemon", "access_log"].contains configKey then
            dictSet result configKey
              (.bool (["true", "1", "yes"].contains (pyLower value)))
          else if configKey == "slow_request_threshold" then
            match pyParseFloat value with
            | some q => dictSet result configKey (.rat q)
            | none => result
          else if ["reload_dirs", "exclude_paths"].contains configKey then
            dictSet result configKey (.strList (splitCommaTrim value))
          else if configKey == "mode" then
            match runModeOfString (pyLower value) with
            | some md => dictSet result configKey (.mode md)
            | none => result
          else if configKey == "log_format" then
            match logFormatOfString (pyLower value) with
            | some f => dictSet result configKey (.logFormat f)
            | none => result
          else if configKey == "server" then
            match serverBackendOfString (pyLower value) with
            | some sv => dictSet result configKey (.server sv)
            | none => result
          else
            dictSet result configKey (.str value))
    []

/-! ## Launcher (`launcher.py`) -/

/-- `launch` lines 145-150: when a mode override is given, rebuild the model
with the overridden mode and re-apply `getEffectiveConfig()` (no named
environment at this point). -/
def applyModeOverride (mode : Option RunMode) (config : LauncherConfig) :
    LauncherConfig :=
  match mode with
  | none => config
  | some m => ({ config with mode := m } : LauncherConfig).getEffectiveConfig none

/-- `launch` lines 151-153: dev-mode default — if the mode is dev and reload
is off, rebuild the model with `reload = True`. -/
def applyDevReloadDefault (config : LauncherConfig) : LauncherConfig :=
  if config.mode = .dev ∧ config.reload = false then
    { config with reload := true }
  else config

/-- The configuration rewriting `launch` performs between loading the config
and dispatching to the backend (mode override, then the dev reload default);
pre-flight checks do not alter the configuration. -/
def launchConfigRewrite (mode : Option RunMode) (config : LauncherConfig) :
    LauncherConfig :=
  applyDevReloadDefault (applyModeOverride mode config)

/-- Launch-stage failures (`LaunchError`). -/
inductive LaunchFailure where
  | serverFailed (msg : String)
deriving DecidableEq, Repr

/-- The filesystem as the set of existing file paths. -/
abbrev FileSystem := List String

/-- `launch` lines 192-195 (the `finally` block): remove the PID file if it
is present. -/
def cleanupPidFile (fs : FileSystem) (pidFile : String) : FileSystem :=
  if fs.contains pidFile then fs.filter (fun p => p != pidFile) else fs

/-- `launch` lines 183-195: dispatch to the server backend (an opaque
blocking call that may alter the filesystem and return normally or raise),
wrap a raised exception as `LaunchError("Server failed: ...")`, and run the
`finally` PID-file cleanup on both paths. -/
def launchDispatchPhase (serverRun : FileSystem → Except String Unit × FileSystem)
    (pidFile : String) (fs : FileSystem) :
    Except LaunchFailure Unit × FileSystem :=
  let (res, fs1) := serverRun fs
  let wrapped : Except LaunchFailure Unit :=
    match res with
    | .ok u => .ok u
    | .error e => .error (.serverFailed e)
  (wrapped, cleanupPidFile fs1 pidFile)

/-! ## The `stop` command (`cli.py` lines 342-375) -/

/-- The observable outcome of a `stop` invocation. -/
structure StopOutcome where
  exitCode : Nat
  pidFileRemoved : Bool
  staleWarning : Bool
deriving DecidableEq, Repr

/-- The `stop` command after config resolution (`cli.py` lines 342-375):

* no PID file (or unparsable) → warning, exit 1;
* recorded process not running → stale warning, remove PID file, exit 0;
* otherwise terminate (force → `killProcess`, else `terminateProcess`);
  on success remove the PID file and exit 0, on failure exit 1 leaving the
  PID file in place.

The liveness check and the two termination primitives are abstracted as
predicates on the PID. -/
def stopCommand (pidRead : Option Int) (isRunning : Int → Bool)
    (force : Bool) (killOk termOk : Int → Bool) : StopOutcome :=
  match pidRead with
  | none => { exitCode := 1, pidFileRemoved := false, staleWarning := false }
  | some pid =>
      if !isRunning pid then
        { exitCode := 0, pidFileRemoved := true, staleWarning := true }
      else
        let stopped := if force then killOk pid else termOk pid
        if stopped then
          { exitCode := 0, pidFileRemoved := true, staleWarning := false }
        else
          { exitCode := 1, pidFileRemoved := false, staleWarning := false }

/-! ## Port probing (`port.py`) -/

/-- `PortInfo` from `port.py`. -/
structure PortInfo where
  port : Int
  pid : Option Int := none
  processName : Option String := none
  status : String := "unknown"
deriving DecidableEq, Repr

/-- `PortInfo.isOccupied`: an owning PID was resolved. -/
def PortInfo.isOccupied (info : PortInfo) : Bool :=
  info.pid.isSome

/-- One entry of `psutil.net_connections(kind="inet")`. -/
structure PortConn where
  laddrPort : Int
  connStatus : String
  pid : Option Int
deriving DecidableEq, Repr

/-- The OS socket-table view seen by `getPortInfo`: either the enumeration
succeeds (a connection list plus a process-name resolver that may fail), or
it raises `AccessDenied`/`NoSuchProcess` and only the cheap connect probe is
available. -/
inductive NetState where
  | connections (conns : List PortConn) (procName : Int → Option String)
  | accessDenied (portInUse : Int → Bool)

/-- `getPortInfo` from `port.py`: find the first LISTEN entry on the port and
take its PID (resolving the process name only when the PID is truthy); on
enumeration failure fall back to the connect probe, setting only
`status = "occupied"` and never a PID. -/
def getPortInfo (net : NetState) (port : Int) : PortInfo :=
  match net with
  | .connections conns procName =>
      match conns.find? (fun c => c.laddrPort == port && c.connStatus == "LISTEN") with
      | some conn =>
          { port := port
            pid := conn.pid
            status := conn.connStatus
            processName :=
              match conn.pid with
              | some p => if p != 0 then procName p else none
              | none => none }
      | none => { port := port }
  | .accessDenied portInUse =>
      if portInUse port then { port := port, status := "occupied" }
      else { port := port }

/-! ## Access-log classification (`accessLog.py`) -/

/-- `isSlowRequest` from `accessLog.py`: `responseTime >= threshold`.  The
Python floats are modelled as rationals; only the order comparison is used. -/
def isSlowRequest (responseTime : ℚ) (threshold : ℚ := 1) : Bool :=
  decide (responseTime ≥ threshold)

/-! ## Example data for the spec's §8 test cases -/

/-- The §8 staging example override table: a `staging` override setting only
host and workers. -/
def stagingExampleEnvs : List (String × EnvironmentConfig) :=
  [("staging", { host := some "0.0.0.0", workers := some 2 })]

/-- The §8 staging example base configuration: base `port = 8000` with the
`staging` override. -/
def stagingExampleBase : LauncherConfig :=
  { port := 8000, envs := some stagingExampleEnvs }

/-!
## Theorems

Helper lemmas first (symbolic evaluation of `parseLauncherConfig` on the
merged dicts that appear in the priority-chain scenarios), then one theorem
per verified property.
-/

/-- Evaluation of the validated merge when only `port` is configured. -/
theorem parse_port_only (p : Int) (h1 : 1 ≤ p) (h2 : p ≤ 65535) :
    parseLauncherConfig [("port", ConfigValue.int p), ("app_dir", ConfigValue.str "/p")] =
      .ok { port := p, appDir := some "/p" } := by
  have hg : getIntRange [("port", ConfigValue.int p), ("app_dir", ConfigValue.str "/p")]
      "port" 8000 (some 1) (some 65535) = .ok p := by
    simp [getIntRange, List.lookup, h1, h2]
  simp only [parseLauncherConfig]
  rw [hg]
  rfl

/-- Evaluation of the validated merge when `port` and a `staging` override
carrying a port are configured. -/
theorem parse_port_staging (p q : Int) (h1 : 1 ≤ p) (h2 : p ≤ 65535)
    (h3 : 1 ≤ q) (h4 : q ≤ 65535) :
    parseLauncherConfig
      [("port", ConfigValue.int p),
       ("envs", ConfigValue.envMap [("staging", { port := some q })]),
       ("app_dir", ConfigValue.str "/p")] =
      .ok { port := p, appDir := some "/p",
            envs := some [("staging", { port := some q })] } := by
  have hg : getIntRange
      [("port", ConfigValue.int p),
       ("envs", ConfigValue.envMap [("staging", { port := some q })]),
       ("app_dir", ConfigValue.str "/p")]
      "port" 8000 (some 1) (some 65535) = .ok p := by
    simp [getIntRange, List.lookup, h1, h2]
  have he : getOptEnvMap
      [("port", ConfigValue.int p),
       ("envs", ConfigValue.envMap [("staging", { port := some q })]),
       ("app_dir", ConfigValue.str "/p")] "envs" =
      .ok (some [("staging", { port := some q })]) := by
    simp [getOptEnvMap, List.lookup, environmentConfigValid, Option.all, h3, h4]
  simp only [parseLauncherConfig]
  rw [hg, he]
  rfl

/-- Evaluation of the validated merge when `port` and an empty `staging`
override are configured. -/
theorem parse_port_staging_empty (p : Int) (h1 : 1 ≤ p) (h2 : p ≤ 65535) :
    parseLauncherConfig
      [("port", ConfigValue.int p),
       ("envs", ConfigValue.envMap [("staging", {})]),
       ("app_dir", ConfigValue.str "/p")] =
      .ok { port := p, appDir := some "/p",
            envs := some [("staging", {})] } := by
  have hg : getIntRange
      [("port", ConfigValue.int p),
       ("envs", ConfigValue.envMap [("staging", {})]),
       ("app_dir", ConfigValue.str "/p")]
      "port" 8000 (some 1) (some 65535) = .ok p := by
    simp [getIntRange, List.lookup, h1, h2]
  simp only [parseLauncherConfig]
  rw [hg]
  rfl

/-- C1 (counterexample): the claim says that for a field set both by CLI args
and by a named-environment override the resolved value is the CLI value.  On
the code it is not: with base port 8000, a `staging` override port 7777 and a
CLI port 9999, resolving with `envName = "staging"` yields 7777, not the CLI
value 9999 — `getEffectiveConfig` applies the override on top of the merged
(CLI-winning) dict. -/
theorem cli_port_loses_to_named_override :
    (loadConfig
        [("port", some (.int 8000)),
         ("envs", some (.envMap [("staging", { port := some 7777 })]))]
        [] [] [("port", some (.int 9999))] "/proj" none (some "staging")).toOption.map
      LauncherConfig.port = some 7777 ∧ (7777 : Int) ≠ 9999 :=
  ⟨rfl, by decide⟩

/-- C1 (amended): merge priority as the code implements it.  Among the merged
sources the order is CLI args > process environment > dotenv > project-file
base > built-in default, and a `None` value never overwrites; but the
named-environment override section is applied after the merge and outranks
every other source for the fields it sets (CLI included), while fields it
does not set keep the merged (CLI-winning) value.  Stated for the `port`
field through the full `loadConfig` pipeline. -/
theorem config_priority_chain (pBase pDot pEnv pCli pOver : Int)
    (hBase : 1 ≤ pBase ∧ pBase ≤ 65535)
    (hDot : 1 ≤ pDot ∧ pDot ≤ 65535)
    (hEnv : 1 ≤ pEnv ∧ pEnv ≤ 65535)
    (hCli : 1 ≤ pCli ∧ pCli ≤ 65535)
    (hOver : 1 ≤ pOver ∧ pOver ≤ 65535) :
    (loadConfig
        [("port", some (.int pBase)),
         ("envs", some (.envMap [("staging", { port := some pOver })]))]
        [("port", some (.int pDot))] [("port", some (.int pEnv))]
        [("port", some (.int pCli))] "/p" none (some "staging")).toOption.map
      LauncherConfig.port = some pOver ∧
    (loadConfig
        [("port", some (.int pBase)), ("envs", some (.envMap [("staging", {})]))]
        [("port", some (.int pDot))] [("port", some (.int pEnv))]
        [("port", some (.int pCli))] "/p" none (some "staging")).toOption.map
      LauncherConfig.port = some pCli ∧
    (loadConfig [("port", some (.int pBase))] [("port", some (.int pDot))]
        [("port", some (.int pEnv))] [] "/p" none none).toOption.map
      LauncherConfig.port = some pEnv ∧
    (loadConfig [("port", some (.int pBase))] [("port", some (.int pDot))]
        [] [] "/p" none none).toOption.map
      LauncherConfig.port = some pDot ∧
    (loadConfig [("port", some (.int pBase))] [] [] [] "/p" none none).toOption.map
      LauncherConfig.port = some pBase ∧
    (loadConfig [] [] [] [] "/p" none none).toOption.map
      LauncherConfig.port = some 8000 ∧
    (loadConfig [("port", some (.int pBase))] [("port", some (.int pDot))]
        [("port", some (.int pEnv))] [("port", none)] "/p" none none).toOption.map
      LauncherConfig.port = some pEnv := by
  refine ⟨?_, ?_, ?_, ?_, ?_, ?_, ?_⟩
  · unfold loadConfig
    rw [show buildMergedConfig
        [("port", some (.int pBase)),
         ("envs", some (.envMap [("staging", { port := some pOver })]))]
        [("port", some (.int pDot))] [("port", some (.int pEnv))]
        [("port", some (.int pCli))] "/p" none =
        [("port", ConfigValue.int pCli),
         ("envs", ConfigValue.envMap [("staging", { port := some pOver })]),
         ("app_dir", ConfigValue.str "/p")] from rfl]
    rw [parse_port_staging pCli pOver hCli.1 hCli.2 hOver.1 hOver.2]
    rfl
  · unfold loadConfig
    rw [show buildMergedConfig
        [("port", some (.int pBase)), ("envs", some (.envMap [("staging", {})]))]
        [("port", some (.int pDot))] [("port", some (.int pEnv))]
        [("port", some (.int pCli))] "/p" none =
        [("port", ConfigValue.int pCli),
         ("envs", ConfigValue.envMap [("staging", {})]),
         ("app_dir", ConfigValue.str "/p")] from rfl]
    rw [parse_port_staging_empty pCli hCli.1 hCli.2]
    rfl
  · unfold loadConfig
    rw [show buildMergedConfig [("port", some (.int pBase))] [("port", some (.int pDot))]
        [("port", some (.int pEnv))] [] "/p" none =
        [("port", ConfigValue.int pEnv), ("app_dir", ConfigValue.str "/p")] from rfl]
    rw [parse_port_only pEnv hEnv.1 hEnv.2]
    rfl
  · unfold loadConfig
    rw [show buildMergedConfig [("port", some (.int pBase))] [("port", some (.int pDot))]
        [] [] "/p" none =
        [("port", ConfigValue.int pDot), ("app_dir", ConfigValue.str "/p")] from rfl]
    rw [parse_port_only pDot hDot.1 hDot.2]
    rfl
  · unfold loadConfig
    rw [show buildMergedConfig [("port", some (.int pBase))] [] [] [] "/p" none =
        [("port", ConfigValue.int pBase), ("app_dir", ConfigValue.str "/p")] from rfl]
    rw [parse_port_only pBase hBase.1 hBase.2]
    rfl
  · rfl
  · unfold loadConfig
    rw [show buildMergedConfig [("port", some (.int pBase))] [("port", some (.int pDot))]
        [("port", some (.int pEnv))] [("port", none)] "/p" none =
        [("port", ConfigValue.int pEnv), ("app_dir", ConfigValue.str "/p")] from rfl]
    rw [parse_port_only pEnv hEnv.1 hEnv.2]
    rfl

/-- C1 (witness): the priority chain evaluated at base 8001, dotenv 8002,
process environment 8003, CLI 8004 and override 7777. -/
theorem config_priority_chain_witness :
    ((1 : Int) ≤ 8001 ∧ (8001 : Int) ≤ 65535) ∧
    ((1 : Int) ≤ 8002 ∧ (8002 : Int) ≤ 65535) ∧
    ((1 : Int) ≤ 8003 ∧ (8003 : Int) ≤ 65535) ∧
    ((1 : Int) ≤ 8004 ∧ (8004 : Int) ≤ 65535) ∧
    ((1 : Int) ≤ 7777 ∧ (7777 : Int) ≤ 65535) ∧
    ((loadConfig
        [("port", some (.int 8001)),
         ("envs", some (.envMap [("staging", { port := some 7777 })]))]
        [("port", some (.int 8002))] [("port", some (.int 8003))]
        [("port", some (.int 8004))] "/p" none (some "staging")).toOption.map
      LauncherConfig.port = some 7777 ∧
    (loadConfig
        [("port", some (.int 8001)), ("envs", some (.envMap [("staging", {})]))]
        [("port", some (.int 8002))] [("port", some (.int 8003))]
        [("port", some (.int 8004))] "/p" none (some "staging")).toOption.map
      LauncherConfig.port = some 8004 ∧
    (loadConfig [("port", some (.int 8001))] [("port", some (.int 8002))]
        [("port", some (.int 8003))] [] "/p" none none).toOption.map
      LauncherConfig.port = some 8003 ∧
    (loadConfig [("port", some (.int 8001))] [("port", some (.int 8002))]
        [] [] "/p" none none).toOption.map
      LauncherConfig.port = some 8002 ∧
    (loadConfig [("port", some (.int 8001))] [] [] [] "/p" none none).toOption.map
      LauncherConfig.port = some 8001 ∧
    (loadConfig [] [] [] [] "/p" none none).toOption.map
      LauncherConfig.port = some 8000 ∧
    (loadConfig [("port", some (.int 8001))] [("port", some (.int 8002))]
        [("port", some (.int 8003))] [("port", none)] "/p" none none).toOption.map
      LauncherConfig.port = some 8003) :=
  ⟨by decide, by decide, by decide, by decide, by decide,
   config_priority_chain 8001 8002 8003 8004 7777
     (by decide) (by decide) (by decide) (by decide) (by decide)⟩

/-- C2: named-environment override application is field-level.  For every
base configuration whose `envs` table maps a non-empty name to an override,
`getEffectiveConfig` keeps the base value of every field the override does
not set (all thirteen override-able fields, plus every field an override can
never touch), and takes the override's value for every field it does set. -/
theorem named_override_is_field_level (c : LauncherConfig) (n : String)
    (es : List (String × EnvironmentConfig)) (e : EnvironmentConfig)
    (hn : n ≠ "") (hes : c.envs = some es) (he : es.lookup n = some e) :
    (e.host = none → (c.getEffectiveConfig (some n)).host = c.host) ∧
    (e.port = none → (c.getEffectiveConfig (some n)).port = c.port) ∧
    (e.reload = none → (c.getEffectiveConfig (some n)).reload = c.reload) ∧
    (e.workers = none → (c.getEffectiveConfig (some n)).workers = c.workers) ∧
    (e.logLevel = none → (c.getEffectiveConfig (some n)).logLevel = c.logLevel) ∧
    (e.logFormat = none → (c.getEffectiveConfig (some n)).logFormat = c.logFormat) ∧
    (e.daemon = none → (c.getEffectiveConfig (some n)).daemon = c.daemon) ∧
    (e.accessLog = none → (c.getEffectiveConfig (some n)).accessLog = c.accessLog) ∧
    (e.server = none → (c.getEffectiveConfig (some n)).server = c.server) ∧
    (e.timeoutGracefulShutdown = none →
      (c.getEffectiveConfig (some n)).timeoutGracefulShutdown = c.timeoutGracefulShutdown) ∧
    (e.maxRequests = none → (c.getEffectiveConfig (some n)).maxRequests = c.maxRequests) ∧
    (e.maxRequestsJitter = none →
      (c.getEffectiveConfig (some n)).maxRequestsJitter = c.maxRequestsJitter) ∧
    (e.workerClass = none → (c.getEffectiveConfig (some n)).workerClass = c.workerClass) ∧
    (e.host.isSome → (c.getEffectiveConfig (some n)).host = e.host.getD c.host) ∧
    (e.port.isSome → (c.getEffectiveConfig (some n)).port = e.port.getD c.port) ∧
    (e.workers.isSome → (c.getEffectiveConfig (some n)).workers = e.workers.getD c.workers) ∧
    (c.getEffectiveConfig (some n)).app = c.app ∧
    (c.getEffectiveConfig (some n)).appDir = c.appDir ∧
    (c.getEffectiveConfig (some n)).mode = c.mode ∧
    (c.getEffectiveConfig (some n)).reloadDirs = c.reloadDirs ∧
    (c.getEffectiveConfig (some n)).runtimeDir = c.runtimeDir ∧
    (c.getEffectiveConfig (some n)).healthPath = c.healthPath ∧
    (c.getEffectiveConfig (some n)).healthTimeout = c.healthTimeout ∧
    (c.getEffectiveConfig (some n)).slowRequestThreshold = c.slowRequestThreshold ∧
    (c.getEffectiveConfig (some n)).excludePaths = c.excludePaths := by
  have hne : es ≠ [] := by
    intro h
    rw [h] at he
    simp [List.lookup] at he
  have heff : c.getEffectiveConfig (some n) =
      { c with
        dev := none, prod := none, envs := none,
        host := e.host.getD c.host,
        port := e.port.getD c.port,
        reload := e.reload.getD c.reload,
        workers := e.workers.getD c.workers,
        logLevel := e.logLevel.getD c.logLevel,
        logFormat := e.logFormat.getD c.logFormat,
        daemon := e.daemon.getD c.daemon,
        accessLog := e.accessLog.getD c.accessLog,
        server := e.server.getD c.server,
        timeoutGracefulShutdown := e.timeoutGracefulShutdown.getD c.timeoutGracefulShutdown,
        maxRequests := e.maxRequests.getD c.maxRequests,
        maxRequestsJitter := e.maxRequestsJitter.getD c.maxRequestsJitter,
        workerClass := e.workerClass.getD c.workerClass } := by
    unfold LauncherConfig.getEffectiveConfig
    have h1 : pyStrTruthy (some n) = true := by simp [pyStrTruthy, hn]
    have h2 : pyDictTruthy c.envs = true := by
      simp [pyDictTruthy, hes, List.isEmpty_iff, hne]
    rw [h1, h2]
    simp only [Bool.and_self, if_true]
    rw [hes]
    simp only [Option.getD_some, Option.getD_none, he]
  rw [heff]
  refine ⟨?_, ?_, ?_, ?_, ?_, ?_, ?_, ?_, ?_, ?_, ?_, ?_, ?_, ?_, ?_, ?_,
    rfl, rfl, rfl, rfl, rfl, rfl, rfl, rfl, rfl⟩ <;>
    intro hf <;> simp [hf]

/-- C2 (witness): the §8 example — base `port = 8000`, `staging` override
`{host = "0.0.0.0", workers = 2}` — resolves with `envName = "staging"` to
`port = 8000`, `host = "0.0.0.0"`, `workers = 2`. -/
theorem named_override_is_field_level_witness :
    ("staging" ≠ "") ∧
    stagingExampleBase.envs = some stagingExampleEnvs ∧
    stagingExampleEnvs.lookup "staging" =
      some { host := some "0.0.0.0", workers := some 2 } ∧
    (stagingExampleBase.getEffectiveConfig (some "staging")).port = 8000 ∧
    (stagingExampleBase.getEffectiveConfig (some "staging")).host = "0.0.0.0" ∧
    (stagingExampleBase.getEffectiveConfig (some "staging")).workers = 2 := by
  have h := named_override_is_field_level stagingExampleBase "staging"
    stagingExampleEnvs { host := some "0.0.0.0", workers := some 2 }
    (by decide) rfl rfl
  exact ⟨by decide, rfl, rfl, h.2.1 rfl,
    h.2.2.2.2.2.2.2.2.2.2.2.2.2.1 rfl,
    h.2.2.2.2.2.2.2.2.2.2.2.2.2.2.2.1 rfl⟩

/-- C3 (counterexample): the claim says resolution with any given `envName`
that is not a defined environment name always errors and never silently falls
back to the base configuration.  The empty string is a given `envName` that
is a key of no environment table (here none is defined at all), yet
`loadConfig` succeeds and returns the base configuration: Python truthiness
treats `envName = ""` like an absent name. -/
theorem empty_envname_silently_falls_back :
    loadConfig [] [] [] [] "/project" none (some "") =
      .ok { appDir := some "/project" } :=
  rfl

/-- C3 (amended): for every non-empty `envName` that is not a key of the
validated configuration's `envs` table — including the cases where `envs` is
absent or empty — `loadConfig` returns the environment-not-found
`ConfigError` carrying the available names, regardless of every other
field. -/
theorem unknown_envname_raises (py de oe cli : ConfigFragment) (pd : String)
    (mode : Option RunMode) (n : String) (config : LauncherConfig)
    (hn : n ≠ "")
    (hparse : parseLauncherConfig (buildMergedConfig py de oe cli pd mode) = .ok config)
    (henv : (config.envs.getD []).lookup n = none) :
    loadConfig py de oe cli pd mode (some n) =
      .error (.envNotFound n ((config.envs.getD []).map Prod.fst)) := by
  unfold loadConfig
  rw [hparse]
  have hnt : pyStrTruthy (some n) = true := by simp [pyStrTruthy, hn]
  cases hcase : config.envs with
  | none =>
      simp [hnt, pyDictTruthy, hcase]
  | some es =>
      cases es with
      | nil => simp [hnt, pyDictTruthy, hcase]
      | cons a as =>
          rw [hcase] at henv
          simp only [Option.getD_some] at henv
          simp [hnt, pyDictTruthy, hcase, henv]

/-- C3 (witness): a project defining only a `staging` environment, resolved
with `envName = "qa"`, errors with the available names. -/
theorem unknown_envname_raises_witness :
    ("qa" ≠ "") ∧
    parseLauncherConfig (buildMergedConfig
        [("envs", some (.envMap [("staging", {})]))] [] [] [] "/p" none) =
      .ok { appDir := some "/p", envs := some [("staging", {})] } ∧
    loadConfig [("envs", some (.envMap [("staging", {})]))] [] [] [] "/p" none
        (some "qa") =
      .error (.envNotFound "qa" ["staging"]) :=
  ⟨by decide, rfl,
   unknown_envname_raises [("envs", some (.envMap [("staging", {})]))] [] [] []
     "/p" none "qa" { appDir := some "/p", envs := some [("staging", {})] }
     (by decide) rfl rfl⟩

/-- C4 (counterexample): the claim says a boolean-valued key whose value is
in neither accepted set is dropped from the source's contribution.  On the
code it is not: `FA_RELOAD=banana` coerces to `False` — the boolean branch
maps every value outside {true,1,yes} to `False` and never drops the key. -/
theorem invalid_bool_value_not_dropped :
    (parseEnvValues [("RELOAD", "banana")]).lookup "reload" =
      some (.bool false) :=
  rfl

/-- C4 (amended): boolean coercion of environment/dotenv strings is total —
a value case-insensitively in {true,1,yes} yields `true`, a value
case-insensitively in {false,0,no} yields `false`, and every other value
also yields `false` (the key is never dropped). -/
theorem env_bool_coercion (v : String) :
    (pyLower v ∈ (["true", "1", "yes"] : List String) →
      (parseEnvValues [("RELOAD", v)]).lookup "reload" = some (.bool true)) ∧
    (pyLower v ∈ (["false", "0", "no"] : List String) →
      (parseEnvValues [("RELOAD", v)]).lookup "reload" = some (.bool false)) ∧
    (pyLower v ∉ (["true", "1", "yes"] : List String) →
      (parseEnvValues [("RELOAD", v)]).lookup "reload" = some (.bool false)) := by
  have base : (parseEnvValues [("RELOAD", v)]).lookup "reload" =
      some (.bool (["true", "1", "yes"].contains (pyLower v))) := rfl
  refine ⟨?_, ?_, ?_⟩
  · intro h
    rw [base]
    congr 2
    simpa using h
  · intro h
    rw [base]
    congr 2
    simp only [List.mem_cons, List.mem_singleton, List.not_mem_nil, or_false] at h
    rcases h with h | h | h <;> simp [h]
  · intro h
    rw [base]
    congr 2
    simpa using h

/-- C4 (witness): `FA_RELOAD=Yes` coerces to `true` (case-insensitive). -/
theorem env_bool_coercion_witness :
    (pyLower "Yes" ∈ (["true", "1", "yes"] : List String)) ∧
    (parseEnvValues [("RELOAD", "Yes")]).lookup "reload" = some (.bool true) :=
  ⟨by decide, (env_bool_coercion "Yes").1 (by decide)⟩

/-- C5: after the launch workflow's configuration rewriting (mode override
followed by the dev-mode default), every configuration whose mode is dev has
`reload = true`, regardless of the configured reload value; this is the
configuration dispatched to the backend. -/
theorem dev_mode_forces_reload (config : LauncherConfig) (mode : Option RunMode)
    (h : (launchConfigRewrite mode config).mode = .dev) :
    (launchConfigRewrite mode config).reload = true := by
  unfold launchConfigRewrite applyDevReloadDefault at h ⊢
  by_cases hc : (applyModeOverride mode config).mode = .dev ∧
      (applyModeOverride mode config).reload = false
  · simp [hc]
  · simp only [hc, if_false] at h ⊢
    cases hr : (applyModeOverride mode config).reload
    · exact absurd ⟨h, hr⟩ hc
    · rfl

/-- C5 (witness): a dev-mode configuration with `reload` explicitly `false`
still dispatches with `reload = true`. -/
theorem dev_mode_forces_reload_witness :
    (launchConfigRewrite none { mode := .dev, reload := false }).mode = .dev ∧
    (launchConfigRewrite none { mode := .dev, reload := false }).reload = true :=
  ⟨rfl, dev_mode_forces_reload { mode := .dev, reload := false } none rfl⟩

/-- C6: on every exit of the dispatch phase — the backend call returning
normally or raising (wrapped as a `LaunchError`) — the PID file is absent
from the final filesystem state, whatever the backend did; and the phase's
result is exactly the backend's result with exceptions wrapped. -/
theorem launch_always_cleans_pidfile
    (serverRun : FileSystem → Except String Unit × FileSystem)
    (pidFile : String) (fs : FileSystem) :
    pidFile ∉ (launchDispatchPhase serverRun pidFile fs).2 ∧
    (launchDispatchPhase serverRun pidFile fs).1 =
      (match (serverRun fs).1 with
       | .ok u => .ok u
       | .error e => .error (.serverFailed e)) := by
  rcases hsr : serverRun fs with ⟨res, fs1⟩
  constructor
  · simp only [launchDispatchPhase, hsr, cleanupPidFile]
    by_cases hc : pidFile ∈ fs1
    · simp [hc, List.mem_filter]
    · simp [hc]
  · cases res <;> simp [launchDispatchPhase, hsr]

/-- C7: `stop` with a PID file whose recorded process is not live removes the
PID file, warns about the stale state, and exits with code 0. -/
theorem stop_dead_process_cleans_and_exits_zero (pid : Int)
    (isRunning : Int → Bool) (force : Bool) (killOk termOk : Int → Bool)
    (h : isRunning pid = false) :
    stopCommand (some pid) isRunning force killOk termOk =
      { exitCode := 0, pidFileRemoved := true, staleWarning := true } := by
  simp [stopCommand, h]

/-- C7 (witness): the stale-PID case at PID 1234. -/
theorem stop_dead_process_cleans_and_exits_zero_witness :
    (fun _ : Int => false) 1234 = false ∧
    stopCommand (some 1234) (fun _ => false) false (fun _ => true) (fun _ => true) =
      { exitCode := 0, pidFileRemoved := true, staleWarning := true } :=
  ⟨rfl, stop_dead_process_cleans_and_exits_zero 1234 (fun _ => false) false
    (fun _ => true) (fun _ => true) rfl⟩

/-- C8: slow-request classification has an inclusive boundary — a response
time equal to the threshold is slow, and every response time strictly below
the threshold is not. -/
theorem slow_request_threshold_inclusive (t : ℚ) :
    isSlowRequest t t = true ∧ ∀ r : ℚ, r < t → isSlowRequest r t = false := by
  constructor
  · simp [isSlowRequest]
  · intro r h
    simp [isSlowRequest]
    exact h

/-- C8 (witness): with the default threshold 1, a response time of exactly 1
is slow and a response time of 0 is not. -/
theorem slow_request_threshold_inclusive_witness :
    (0 : ℚ) < 1 ∧ isSlowRequest 1 1 = true ∧ isSlowRequest 0 1 = false :=
  ⟨by norm_num, (slow_request_threshold_inclusive 1).1,
   (slow_request_threshold_inclusive 1).2 0 (by norm_num)⟩

/-- C9: `PortInfo.isOccupied` is true exactly when an owning PID was
resolved; consequently a port probed through the permission-denied fallback
(connect probe succeeding, status "occupied", no PID) reports
`isOccupied = false` even though the port is in use. -/
theorem isOccupied_iff_pid_resolved :
    (∀ info : PortInfo, info.isOccupied = true ↔ info.pid ≠ none) ∧
    (∀ (portInUse : Int → Bool) (port : Int), portInUse port = true →
      (getPortInfo (.accessDenied portInUse) port).isOccupied = false ∧
      (getPortInfo (.accessDenied portInUse) port).status = "occupied") := by
  constructor
  · intro info
    cases h : info.pid <;> simp [PortInfo.isOccupied, h]
  · intro f p h
    constructor <;> simp [getPortInfo, h, PortInfo.isOccupied]

/-- C9 (witness): a connect probe that reports port 8000 in use, under the
denied-enumeration fallback, still yields `isOccupied = false`. -/
theorem isOccupied_iff_pid_resolved_witness :
    (fun _ : Int => true) 8000 = true ∧
    (getPortInfo (.accessDenied fun _ => true) 8000).isOccupied = false ∧
    (getPortInfo (.accessDenied fun _ => true) 8000).status = "occupied" :=
  ⟨rfl, (isOccupied_iff_pid_resolved.2 (fun _ => true) 8000 rfl).1,
   (isOccupied_iff_pid_resolved.2 (fun _ => true) 8000 rfl).2⟩

/-- C10: when the recorded process is live but termination (forced or
graceful-then-forced) fails to confirm it gone, `stop` exits with code 1 and
the PID file is not removed — removal happens only on confirmed
termination. -/
theorem stop_termination_failure_keeps_pidfile (pid : Int)
    (isRunning : Int → Bool) (force : Bool) (killOk termOk : Int → Bool)
    (hrun : isRunning pid = true)
    (hstop : (if force then killOk pid else termOk pid) = false) :
    stopCommand (some pid) isRunning force killOk termOk =
      { exitCode := 1, pidFileRemoved := false, staleWarning := false } := by
  simp [stopCommand, hrun, hstop]

/-- C10 (witness): a live PID 1234 whose graceful termination fails leaves
the PID file and exits 1. -/
theorem stop_termination_failure_keeps_pidfile_witness :
    (fun _ : Int => true) 1234 = true ∧
    (if false then (fun _ : Int => true) 1234 else (fun _ : Int => false) 1234) = false ∧
    stopCommand (some 1234) (fun _ => true) false (fun _ => true) (fun _ => false) =
      { exitCode := 1, pidFileRemoved := false, staleWarning := false } :=
  ⟨rfl, rfl, stop_termination_failure_keeps_pidfile 1234 (fun _ => true) false
    (fun _ => true) (fun _ => false) rfl rfl⟩

end FastapiLauncher
